import Mathlib

/-!
Verification of the trello-weekly-report repository: a shallow embedding of
the report widget (done-list lookup, date-range card filter, HTML table
render) and of the server proxy endpoints, with theorems settling the
specification's claims about them.

Timestamps: the JavaScript code parses `dateLastActivity`, `startDate` and
`endDate` with `new Date(...)` and compares the resulting millisecond
timestamps with `>=` / `<=`.  We model a well-formed timestamp as an `Int`
and the comparisons as the integer order, which is exactly the order
`Date` comparison induces on well-formed dates.
-/

namespace TrelloReport

/-- A Trello label as consumed by the widget: only `name` is read. -/
structure Label where
  name : String
deriving DecidableEq, Repr

/-- A Trello card as consumed by the widget. -/
structure Card where
  id : String
  name : String
  idList : String
  labels : List Label
  idMembers : List String
  dateLastActivity : Int
  url : String
deriving DecidableEq, Repr

/-- A Trello list as consumed by the widget: `{id, name}`. -/
structure TrelloList where
  id : String
  name : String
deriving DecidableEq, Repr

/-- ASCII lowercasing, modelling how `toLowerCase` acts on the ASCII
list names the widget compares ("Done", "Doing" and their case
variants).  Defined directly over the string's characters so that it
computes by reduction. -/
def strToLower (s : String) : String := ⟨s.data.map Char.toLower⟩

/-- Done-list lookup of the part_001 click handler (and of
`generateReport` in src/client.js):
`lists.find(list => list.name.toLowerCase() === 'done')`. -/
def findDoneList (lists : List TrelloList) : Option TrelloList :=
  lists.find? (fun l => strToLower l.name = "done")

/-- Done-list lookup of the older handler in src/public/js/client.js:
`lists.find(list => list.name === 'Done')` — an exact, case-sensitive
comparison. -/
def findDoneListExact (lists : List TrelloList) : Option TrelloList :=
  lists.find? (fun l => l.name = "Done")

/-- The completed-card predicate of the part_001 click handler:
`card.idList === doneList.id && movedDate >= startDate && movedDate <= endDate`. -/
def isCompletedCard (doneListId : String) (startDate endDate : Int)
    (c : Card) : Bool :=
  c.idList = doneListId && startDate ≤ c.dateLastActivity
    && c.dateLastActivity ≤ endDate

/-- The completed-card filter of the part_001 click handler:
`cards.filter(card => ...)`. -/
def completedCards (doneListId : String) (startDate endDate : Int)
    (cards : List Card) : List Card :=
  cards.filter (isCompletedCard doneListId startDate endDate)

/-!
## The render (`displayReport`, part_001 / src/public/js/client.js)

`toLocaleDateString` is environment dependent, so the renderer is
parameterised by the date formatter `fmtDate`, applied to the card's
`dateLastActivity` exactly where the code applies
`new Date(card.dateLastActivity).toLocaleDateString()`.
-/

/-- The Labels cell:
`card.labels.map(label => label.name).join(', ') || 'No Labels'` —
the fallback fires exactly when the joined string is empty (a JavaScript
falsy check on the string), not when the labels array is empty. -/
def labelsCellText (labels : List Label) : String :=
  let joined := String.intercalate ", " (labels.map (fun l => l.name))
  if joined = "" then "No Labels" else joined

/-- One `<tr>` of the report body, from the inner template literal of
`displayReport`. -/
def cardRow (fmtDate : Int → String) (c : Card) : String :=
  "\n          <tr>\n            <td>" ++ c.name
    ++ "</td>\n            <td>" ++ labelsCellText c.labels
    ++ "</td>\n            <td>" ++ fmtDate c.dateLastActivity
    ++ "</td>\n          </tr>\n        "

/-- The fixed `<thead>` part of the template: the three column headers. -/
def reportTableHead : String :=
  ")</h3>\n    <table>\n      <thead>\n        <tr>\n          <th>Task Name</th>\n          <th>Labels</th>\n          <th>Completed Date</th>\n        </tr>\n      </thead>\n      <tbody>\n        "

/-- `displayReport` of part_001 (identical in src/public/js/client.js):
builds `reportHtml` from the template literal and the row map. -/
def displayReport (fmtDate : Int → String) (cards : List Card) : String :=
  "\n    <h3>Completed Tasks (" ++ toString cards.length ++ reportTableHead
    ++ String.join (cards.map (cardRow fmtDate))
    ++ "\n      </tbody>\n    </table>\n  "

/-!
## The part_001 generate-report click handler

The handler reads the two date inputs, validates them, fetches
`/api/lists` and `/api/cards` through the proxy, locates the Done list,
filters and renders.  Inputs that the browser environment supplies
(parsed dates, fetch outcomes, fetched JSON) are fields of
`HandlerInput`; an invalid date (`NaN` from `new Date`) is `none`.
The result records the final innerHTML of `report-content`, the network
fetches issued in order, and whether `displayReport` was invoked.
-/

inductive NetworkCall where
  | fetchLists
  | fetchCards
deriving DecidableEq, Repr

structure HandlerInput where
  startDateRaw : Option Int
  endDateRaw : Option Int
  listsOk : Bool
  cardsOk : Bool
  lists : List TrelloList
  cards : List Card

structure HandlerResult where
  content : String
  calls : List NetworkCall
  rendered : Bool
deriving Repr

/-- The catch block: `reportContent.innerHTML = `<div class="error">Error: ...</div>``. -/
def errorContent (msg : String) : String :=
  "<div class=\"error\">Error: " ++ msg ++ "</div>"

def mkError (msg : String) (calls : List NetworkCall) : HandlerResult :=
  { content := errorContent msg, calls := calls, rendered := false }

/-- The part_001 generate-report click handler. -/
def generateReportHandler (fmtDate : Int → String) (inp : HandlerInput) :
    HandlerResult :=
  match inp.startDateRaw, inp.endDateRaw with
  | some s, some e =>
    if s > e then mkError "Start date must be before end date" []
    else
      let calls := [NetworkCall.fetchLists, NetworkCall.fetchCards]
      if inp.listsOk && inp.cardsOk then
        match findDoneList inp.lists with
        | some dl =>
          { content := displayReport fmtDate (completedCards dl.id s e inp.cards)
            calls := calls
            rendered := true }
        | none => mkError "No \"Done\" list found on this board" calls
      else mkError "Failed to fetch data from server" calls
  | _, _ => mkError "Please select valid dates" []

/-!
## The src/client.js report path (`generateReport` / `populateReportTable`)

This older variant validates only that both date fields are non-empty,
fetches board id, lists and cards through the host SDK, requires both a
"done" and a "doing" list (case-insensitively), fetches each list's cards
from the Trello API, and fills the table via `populateReportTable` —
which applies no date filtering at all and renders six cells per row.
-/

structure Member where
  id : String
  fullName : String
deriving DecidableEq, Repr

inductive SdkCall where
  | board
  | lists
  | cards
  | listCards (listId : String)
deriving DecidableEq, Repr

structure ReportRow where
  taskName : String
  labelsCell : String
  completedBy : String
  completionDate : String
  statusCell : String
  linkHref : String
deriving DecidableEq, Repr

/-- The six `<td>` cells appended to each row by `populateReportTable`,
in order (the last cell holds the "View Card" link to `card.url`). -/
def rowCells (r : ReportRow) : List String :=
  [r.taskName, r.labelsCell, r.completedBy, r.completionDate, r.statusCell,
   r.linkHref]

/-- `member ? member.fullName : 'Unknown'` over `getContext().members`. -/
def memberName (members : List Member) (memberId : String) : String :=
  match members.find? (fun m => m.id = memberId) with
  | some m => m.fullName
  | none => "Unknown"

/-- One row built by `populateReportTable` for a card. -/
def populateRow (fmtDate : Int → String) (members : List Member)
    (doneCards : List Card) (c : Card) : ReportRow :=
  { taskName := c.name
    labelsCell := String.intercalate ", " (c.labels.map (fun l => l.name))
    completedBy := String.intercalate ", " (c.idMembers.map (memberName members))
    completionDate := fmtDate c.dateLastActivity
    statusCell := if doneCards.contains c then "Done" else "Doing"
    linkHref := c.url }

/-- `populateReportTable(doneCards, doingCards, ...)`: rows for
`[...doneCards, ...doingCards]` in order, and whether the Send Email
button ends up enabled (`allCards.length > 0`). -/
def populateReportTable (fmtDate : Int → String) (members : List Member)
    (doneCards doingCards : List Card) : List ReportRow × Bool :=
  let allCards := doneCards ++ doingCards
  (allCards.map (populateRow fmtDate members doneCards),
   decide (0 < allCards.length))

structure GenerateReportInput where
  startDateStr : String
  endDateStr : String
  lists : List TrelloList
  members : List Member
  doneListCards : List Card
  doingListCards : List Card

structure GenerateReportResult where
  errorMsg : Option String
  calls : List SdkCall
  tableRows : List ReportRow
  tableRendered : Bool
  emailEnabled : Bool
deriving Repr

/-- `generateReport` of src/client.js (successful-fetch executions):
note there is no comparison of `startDate` with `endDate` anywhere. -/
def generateReport (fmtDate : Int → String) (inp : GenerateReportInput) :
    GenerateReportResult :=
  if inp.startDateStr = "" || inp.endDateStr = "" then
    { errorMsg := some "Please select both start and end dates"
      calls := [], tableRows := [], tableRendered := false
      emailEnabled := false }
  else
    let calls := [SdkCall.board, SdkCall.lists, SdkCall.cards]
    match findDoneList inp.lists,
          inp.lists.find? (fun l => strToLower l.name = "doing") with
    | some dl, some gl =>
      let res := populateReportTable fmtDate inp.members
        inp.doneListCards inp.doingListCards
      { errorMsg := none
        calls := calls ++ [SdkCall.listCards dl.id, SdkCall.listCards gl.id]
        tableRows := res.1, tableRendered := true, emailEnabled := res.2 }
    | _, _ =>
      { errorMsg := some "Could not find \"Done\" or \"Doing\" lists on this board"
        calls := calls, tableRows := [], tableRendered := false
        emailEnabled := false }

/-!
## Spec-side renderer

For the refinement claim about the render, a second renderer follows the
specification's words (as amended): an HTML table whose header has
exactly the columns Task Name, Labels and Completed Date, and one row
per card holding a (task name, labels text, completed date) triple.
-/

/-- The comma-join of a card's label names,
`card.labels.map(label => label.name).join(', ')`. -/
def joinLabelNames (labels : List Label) : String :=
  String.intercalate ", " (labels.map (fun l => l.name))

/-- The Labels text per the amended claim: the comma-join of the label
names, or "No Labels" when that join is empty. -/
def specLabelsText (labels : List Label) : String :=
  if joinLabelNames labels = "" then "No Labels" else joinLabelNames labels

/-- Spec-side row: a `<tr>` with exactly three `<td>` cells holding the
task name, the labels text and the completed date. -/
def specRenderRow (row : String × String × String) : String :=
  "\n          <tr>\n            <td>" ++ row.1
    ++ "</td>\n            <td>" ++ row.2.1
    ++ "</td>\n            <td>" ++ row.2.2
    ++ "</td>\n          </tr>\n        "

/-- Spec-side table: heading with the card count, a header row with
exactly the columns Task Name, Labels and Completed Date, and the body
rows. -/
def specRender (count : Nat) (rows : List (String × String × String)) :
    String :=
  "\n    <h3>Completed Tasks (" ++ toString count
    ++ ")</h3>\n    <table>\n      <thead>\n        <tr>\n          <th>Task Name</th>\n          <th>Labels</th>\n          <th>Completed Date</th>\n        </tr>\n      </thead>\n      <tbody>\n        "
    ++ String.join (rows.map specRenderRow)
    ++ "\n      </tbody>\n    </table>\n  "

/-!
## Concrete data for examples, counterexamples and witnesses

Well-formed `YYYY-MM-DD` dates are encoded as the integers `YYYYMMDD`,
a strictly monotone encoding of the order that `new Date` comparison
induces on them.
-/

/-- The example board of the specification: a single list named Done. -/
def exampleLists : List TrelloList := [⟨"L1", "Done"⟩]

/-- Example card C1: in L1, last activity 2024-01-10. -/
def exampleCard1 : Card :=
  ⟨"C1", "C1", "L1", [], [], 20240110, ""⟩

/-- Example card C2: in L1, last activity 2024-02-01. -/
def exampleCard2 : Card :=
  ⟨"C2", "C2", "L1", [], [], 20240201, ""⟩

/-- An input whose start date 2024-02-01 is after its end date
2024-01-01, with both fields non-empty and a board that has Done and
Doing lists. -/
def claim4Input : GenerateReportInput :=
  { startDateStr := "2024-02-01", endDateStr := "2024-01-01"
    lists := [⟨"L1", "Done"⟩, ⟨"L2", "Doing"⟩]
    members := [], doneListCards := [], doingListCards := [] }

/-- A card carrying exactly one label whose name is empty (Trello
colour-only labels have empty names). -/
def claim9Card : Card :=
  ⟨"C9", "Task", "L1", [⟨""⟩], [], 20240110, "https://trello.example"⟩

end TrelloReport

namespace TrelloServer

/-!
## The proxy endpoints

`GET /api/lists` and `GET /api/cards` in src/server.js each make a single
`fetch` to the Trello API, throw on `!response.ok` or a JSON parse
failure, and answer 500 with a generic `error` object from the catch
block; on success they pass the upstream JSON through with status 200.
The variant `/api/cards` handler of part_000 has no `response.ok`
check.  The handlers are modelled over an oracle giving the outcome of
the nth upstream attempt; the second component of the result counts the
upstream attempts made.
-/

structure UpstreamResponse where
  status : Nat
  bodyParses : Bool
  body : String
deriving DecidableEq, Repr

/-- `response.ok`: status in the 2xx range. -/
def UpstreamResponse.isOk (r : UpstreamResponse) : Bool :=
  200 ≤ r.status && r.status ≤ 299

inductive UpstreamOutcome where
  | response (r : UpstreamResponse)
  | netFail
deriving DecidableEq, Repr

/-- A proxy response body: either the upstream JSON passed through, or
the generic error object the catch block sends. -/
inductive ProxyBody where
  | passthrough (body : String)
  | errorObj (msg : String)
deriving DecidableEq, Repr

structure ProxyResponse where
  status : Nat
  body : ProxyBody
deriving DecidableEq, Repr

/-- Common shape of the two src/server.js handlers (which differ only in
URL and error message). -/
def serverProxy (errMsg : String) (oracle : Nat → UpstreamOutcome) :
    ProxyResponse × Nat :=
  (match oracle 0 with
   | .netFail => ⟨500, .errorObj errMsg⟩
   | .response r =>
     if r.isOk then
       if r.bodyParses then ⟨200, .passthrough r.body⟩
       else ⟨500, .errorObj errMsg⟩
     else ⟨500, .errorObj errMsg⟩,
   1)

/-- src/server.js `GET /api/lists`. -/
def apiListsHandler : (Nat → UpstreamOutcome) → ProxyResponse × Nat :=
  serverProxy "Failed to fetch lists from Trello"

/-- src/server.js `GET /api/cards`. -/
def apiCardsHandler : (Nat → UpstreamOutcome) → ProxyResponse × Nat :=
  serverProxy "Failed to fetch cards from Trello"

/-- part_000 `GET /api/cards`: no `response.ok` check, so any upstream
response whose body parses is passed through with 200. -/
def apiCardsHandlerPart000 (oracle : Nat → UpstreamOutcome) :
    ProxyResponse × Nat :=
  (match oracle 0 with
   | .netFail => ⟨500, .errorObj "Failed to fetch cards"⟩
   | .response r =>
     if r.bodyParses then ⟨200, .passthrough r.body⟩
     else ⟨500, .errorObj "Failed to fetch cards"⟩,
   1)

/-- A non-2xx upstream response carrying a well-formed JSON error body,
as Trello sends for an unknown board id. -/
def upstream404 : UpstreamResponse := ⟨404, true, "upstream error body"⟩

/-- An upstream oracle answering every attempt with the 404 response. -/
def oracle404 : Nat → UpstreamOutcome := fun _ => .response upstream404

/-- An upstream oracle answering every attempt with a 200 response whose
body is the empty JSON array. -/
def oracle200 : Nat → UpstreamOutcome :=
  fun _ => .response ⟨200, true, "[]"⟩

/-- An upstream oracle on which every attempt fails at the network
level. -/
def oracleNetFail : Nat → UpstreamOutcome := fun _ => .netFail

end TrelloServer

namespace TrelloReport

/-- Membership in a filter unfolded to the completed-card predicate. -/
theorem mem_completedCards {d : String} {s e : Int} {cards : List Card}
    {c : Card} :
    c ∈ completedCards d s e cards ↔
      c ∈ cards ∧ c.idList = d ∧ s ≤ c.dateLastActivity
        ∧ c.dateLastActivity ≤ e := by
  simp [completedCards, isCompletedCard, List.mem_filter, and_assoc]

/-- Claim C1: when the Done list has been located, the filter keeps
exactly the cards in that list whose last activity lies in
`[startDate, endDate]`; on the concrete example board, the report
contains exactly the card with activity 2024-01-10 and drops the one
with activity 2024-02-01. -/
theorem claim1_filter_characterization
    (lists : List TrelloList) (dl : TrelloList) (s e : Int)
    (cards : List Card) (c : Card)
    (hfind : findDoneList lists = some dl) :
    (c ∈ completedCards dl.id s e cards ↔
      c ∈ cards ∧ c.idList = dl.id ∧ s ≤ c.dateLastActivity
        ∧ c.dateLastActivity ≤ e) ∧
    completedCards "L1" 20240101 20240131 [exampleCard1, exampleCard2]
      = [exampleCard1] := by
  refine ⟨mem_completedCards, ?_⟩
  decide

/-- Witness for C1 at the specification's example board and range. -/
theorem claim1_filter_characterization_witness :
    (exampleCard2 ∈ completedCards "L1" 20240101 20240131
        [exampleCard1, exampleCard2] ↔
      exampleCard2 ∈ [exampleCard1, exampleCard2]
        ∧ exampleCard2.idList = "L1"
        ∧ (20240101 : Int) ≤ exampleCard2.dateLastActivity
        ∧ exampleCard2.dateLastActivity ≤ 20240131) ∧
    completedCards "L1" 20240101 20240131 [exampleCard1, exampleCard2]
      = [exampleCard1] :=
  claim1_filter_characterization exampleLists ⟨"L1", "Done"⟩ 20240101
    20240131 [exampleCard1, exampleCard2] exampleCard2 (by decide)

/-- Claim C3: both range boundaries are inclusive — a card of the Done
list whose last activity equals `startDate` or `endDate` is kept by the
filter. -/
theorem claim3_inclusive_boundaries
    (d : String) (s e : Int) (cards : List Card) (c : Card)
    (hmem : c ∈ cards) (hlist : c.idList = d)
    (hdate : c.dateLastActivity = s ∨ c.dateLastActivity = e)
    (hrange : s ≤ e) :
    c ∈ completedCards d s e cards := by
  refine mem_completedCards.mpr ⟨hmem, hlist, ?_, ?_⟩ <;>
    rcases hdate with h | h <;> omega

/-- Witness for C3: a card dated exactly at the start boundary. -/
theorem claim3_inclusive_boundaries_witness :
    (⟨"C3", "C3", "L1", [], [], 20240101, ""⟩ : Card)
      ∈ completedCards "L1" 20240101 20240131
          [⟨"C3", "C3", "L1", [], [], 20240101, ""⟩] :=
  claim3_inclusive_boundaries "L1" 20240101 20240131
    [⟨"C3", "C3", "L1", [], [], 20240101, ""⟩]
    ⟨"C3", "C3", "L1", [], [], 20240101, ""⟩
    (by decide) rfl (Or.inl rfl) (by decide)

/-- Claim C8: the filter is stable — its output is a subsequence of the
input, and two selected cards keep their relative order: filtering a
list that splits as `l₁ ++ a :: l₂ ++ b :: l₃` with `a` and `b` both
selected yields `a` still before `b`. -/
theorem claim8_filter_stable
    (d : String) (s e : Int) (cards l₁ l₂ l₃ : List Card) (a b : Card)
    (ha : isCompletedCard d s e a = true)
    (hb : isCompletedCard d s e b = true) :
    (completedCards d s e cards).Sublist cards ∧
    completedCards d s e (l₁ ++ a :: l₂ ++ b :: l₃)
      = completedCards d s e l₁
          ++ a :: (completedCards d s e l₂
          ++ b :: completedCards d s e l₃) := by
  constructor
  · exact List.filter_sublist cards
  · simp [completedCards, List.filter_append, List.filter_cons, ha, hb]

/-- Witness for C8 with two selected cards around an unselected one. -/
theorem claim8_filter_stable_witness :
    (completedCards "L1" 20240101 20240131
        [exampleCard1, exampleCard2]).Sublist
      [exampleCard1, exampleCard2] ∧
    completedCards "L1" 20240101 20240131
        ([] ++ exampleCard1 :: [exampleCard2]
          ++ ⟨"C3", "C3", "L1", [], [], 20240115, ""⟩ :: [])
      = completedCards "L1" 20240101 20240131 []
          ++ exampleCard1 :: (completedCards "L1" 20240101 20240131
              [exampleCard2]
          ++ ⟨"C3", "C3", "L1", [], [], 20240115, ""⟩ ::
              completedCards "L1" 20240101 20240131 []) :=
  claim8_filter_stable "L1" 20240101 20240131
    [exampleCard1, exampleCard2] [] [exampleCard2] []
    exampleCard1 ⟨"C3", "C3", "L1", [], [], 20240115, ""⟩
    (by decide) (by decide)

/-- Claim C10: the completed-card filter is idempotent — applying it to
its own output changes nothing. -/
theorem claim10_filter_idempotent
    (lists : List TrelloList) (dl : TrelloList) (s e : Int)
    (cards : List Card)
    (hfind : findDoneList lists = some dl) :
    completedCards dl.id s e (completedCards dl.id s e cards)
      = completedCards dl.id s e cards := by
  unfold completedCards
  rw [List.filter_filter]
  simp

/-- Claim C2 counterexample: the list named "done" (lower case)
satisfies the case-insensitive comparison, and the part_001 lookup finds
it, but the lookup of the handler in src/public/js/client.js compares
the exact string "Done" and does not find it. -/
theorem claim2_counterexample :
    strToLower (⟨"L1", "done"⟩ : TrelloList).name = "done" ∧
    findDoneList [⟨"L1", "done"⟩] = some ⟨"L1", "done"⟩ ∧
    findDoneListExact [⟨"L1", "done"⟩] = none := by
  decide

/-- Claim C2 as amended: the part_001 lookup (shared by
src/client.js) finds a list whenever some list's name equals "done"
ignoring case, the found list's name equals "done" ignoring case, and
the filter then returns only cards whose idList is the found list's id;
the variant in src/public/js/client.js only ever finds a list literally
named "Done". -/
theorem claim2_amended (lists : List TrelloList) (l dl dl₂ : TrelloList)
    (s e : Int) (cards : List Card) (c : Card)
    (hl : l ∈ lists) (hname : strToLower l.name = "done")
    (hfind : findDoneList lists = some dl)
    (hc : c ∈ completedCards dl.id s e cards)
    (hexact : findDoneListExact lists = some dl₂) :
    (findDoneList lists).isSome = true ∧ strToLower dl.name = "done" ∧
    c.idList = dl.id ∧ dl₂.name = "Done" := by
  refine ⟨?_, ?_, (mem_completedCards.mp hc).2.1, ?_⟩
  · exact List.find?_isSome.mpr ⟨l, hl, by simp [hname]⟩
  · have h := hfind
    unfold findDoneList at h
    simpa using List.find?_some h
  · have h := hexact
    unfold findDoneListExact at h
    simpa using List.find?_some h

/-- Witness for the amended C2 on a board whose Done list matches both
lookups. -/
theorem claim2_amended_witness :
    (findDoneList exampleLists).isSome = true ∧
    strToLower (⟨"L1", "Done"⟩ : TrelloList).name = "done" ∧
    exampleCard1.idList = (⟨"L1", "Done"⟩ : TrelloList).id ∧
    (⟨"L1", "Done"⟩ : TrelloList).name = "Done" :=
  claim2_amended exampleLists ⟨"L1", "Done"⟩ ⟨"L1", "Done"⟩
    ⟨"L1", "Done"⟩ 20240101 20240131 [exampleCard1] exampleCard1
    (by decide) (by decide) (by decide) (by decide) (by decide)

/-- Claim C4 counterexample: with a start date after the end date, the
src/client.js generateReport does not reject — it reports no error and
issues the lists fetch, the cards fetch and the per-list card fetches. -/
theorem claim4_counterexample :
    (generateReport (fun _ => "") claim4Input).errorMsg = none ∧
    SdkCall.lists ∈ (generateReport (fun _ => "") claim4Input).calls ∧
    SdkCall.cards ∈ (generateReport (fun _ => "") claim4Input).calls ∧
    SdkCall.listCards "L1" ∈ (generateReport (fun _ => "") claim4Input).calls := by
  decide

/-- Claim C4 as amended: the part_001 click handler rejects
startDate > endDate with a validation error before issuing any network
call, but the src/client.js generateReport never compares the two dates:
whenever both fields are non-empty it issues its lists and cards fetches
regardless of date order. -/
theorem claim4_amended (fmtDate : Int → String) (inp : HandlerInput)
    (s e : Int) (ginp : GenerateReportInput)
    (hs : inp.startDateRaw = some s) (he : inp.endDateRaw = some e)
    (hgt : e < s)
    (h1 : ginp.startDateStr ≠ "") (h2 : ginp.endDateStr ≠ "") :
    generateReportHandler fmtDate inp
      = mkError "Start date must be before end date" [] ∧
    (generateReportHandler fmtDate inp).calls = [] ∧
    SdkCall.lists ∈ (generateReport fmtDate ginp).calls ∧
    SdkCall.cards ∈ (generateReport fmtDate ginp).calls := by
  obtain ⟨sr, er, lo, co, ls, cs⟩ := inp
  simp only at hs he
  subst hs he
  have hpart : generateReportHandler fmtDate
      ⟨some s, some e, lo, co, ls, cs⟩
      = mkError "Start date must be before end date" [] := by
    simp [generateReportHandler, hgt]
  refine ⟨hpart, by simp [hpart, mkError], ?_⟩
  obtain ⟨ss, es, gls, gm, gdc, ggc⟩ := ginp
  simp only at h1 h2
  rcases hfd : findDoneList gls with _ | dl <;>
    rcases hfg : gls.find? (fun l => strToLower l.name = "doing")
      with _ | gl <;>
    simp [generateReport, h1, h2, hfd, hfg]

/-- Witness for the amended C4 at a concrete inverted date range. -/
theorem claim4_amended_witness :
    generateReportHandler (fun _ => "")
        ⟨some 20240201, some 20240101, true, true, exampleLists, []⟩
      = mkError "Start date must be before end date" [] ∧
    (generateReportHandler (fun _ => "")
        ⟨some 20240201, some 20240101, true, true, exampleLists, []⟩).calls
      = [] ∧
    SdkCall.lists ∈ (generateReport (fun _ => "") claim4Input).calls ∧
    SdkCall.cards ∈ (generateReport (fun _ => "") claim4Input).calls :=
  claim4_amended (fun _ => "")
    ⟨some 20240201, some 20240101, true, true, exampleLists, []⟩
    20240201 20240101 claim4Input rfl rfl (by decide) (by decide)
    (by decide)

/-- Claim C6: when no list on the board is named "done" (ignoring
case), both report paths show a user-visible error and never render the
table: the part_001 handler leaves an error div in report-content and
never invokes displayReport, and src/client.js generateReport reports an
error and never invokes populateReportTable. -/
theorem claim6_no_done_list (fmtDate : Int → String) (inp : HandlerInput)
    (ginp : GenerateReportInput)
    (hnone : ∀ l ∈ inp.lists, ¬ strToLower l.name = "done")
    (hnone₂ : ∀ l ∈ ginp.lists, ¬ strToLower l.name = "done") :
    ((generateReportHandler fmtDate inp).rendered = false ∧
     ∃ msg, (generateReportHandler fmtDate inp).content
       = errorContent msg) ∧
    ((generateReport fmtDate ginp).tableRendered = false ∧
     ((generateReport fmtDate ginp).errorMsg).isSome = true) := by
  obtain ⟨sr, er, lo, co, ls, cs⟩ := inp
  obtain ⟨ss, es, gls, gm, gdc, ggc⟩ := ginp
  simp only at hnone hnone₂
  have hfd : findDoneList ls = none :=
    List.find?_eq_none.mpr (fun l hl => by simp [hnone l hl])
  have hfd₂ : findDoneList gls = none :=
    List.find?_eq_none.mpr (fun l hl => by simp [hnone₂ l hl])
  constructor
  · rcases sr with _ | s
    · exact ⟨rfl, "Please select valid dates", rfl⟩
    rcases er with _ | e
    · exact ⟨rfl, "Please select valid dates", rfl⟩
    by_cases hgt : s > e
    · have hres : generateReportHandler fmtDate
          ⟨some s, some e, lo, co, ls, cs⟩
          = mkError "Start date must be before end date" [] := by
        simp [generateReportHandler, hgt]
      exact ⟨by rw [hres]; rfl, "Start date must be before end date",
        by rw [hres]; rfl⟩
    rcases hok : lo && co with _ | _
    · have hres : generateReportHandler fmtDate
          ⟨some s, some e, lo, co, ls, cs⟩
          = mkError "Failed to fetch data from server"
              [NetworkCall.fetchLists, NetworkCall.fetchCards] := by
        simp [generateReportHandler, hgt, hok]
      exact ⟨by rw [hres]; rfl, "Failed to fetch data from server",
        by rw [hres]; rfl⟩
    · have hres : generateReportHandler fmtDate
          ⟨some s, some e, lo, co, ls, cs⟩
          = mkError "No \"Done\" list found on this board"
              [NetworkCall.fetchLists, NetworkCall.fetchCards] := by
        simp [generateReportHandler, hgt, hok, hfd]
      exact ⟨by rw [hres]; rfl, "No \"Done\" list found on this board",
        by rw [hres]; rfl⟩
  · by_cases h1 : ss = ""
    · simp [generateReport, h1]
    by_cases h2 : es = ""
    · simp [generateReport, h1, h2]
    rcases hfg : gls.find? (fun l => strToLower l.name = "doing")
      with _ | gl <;>
      simp [generateReport, h1, h2, hfd₂, hfg]

/-- Witness for C6 on a board with only a Backlog list. -/
theorem claim6_no_done_list_witness :
    ((generateReportHandler (fun _ => "")
        ⟨some 20240101, some 20240131, true, true,
          [⟨"L9", "Backlog"⟩], []⟩).rendered = false ∧
     ∃ msg, (generateReportHandler (fun _ => "")
        ⟨some 20240101, some 20240131, true, true,
          [⟨"L9", "Backlog"⟩], []⟩).content = errorContent msg) ∧
    ((generateReport (fun _ => "")
        ⟨"2024-01-01", "2024-01-31", [⟨"L9", "Backlog"⟩], [], [],
          []⟩).tableRendered = false ∧
     ((generateReport (fun _ => "")
        ⟨"2024-01-01", "2024-01-31", [⟨"L9", "Backlog"⟩], [], [],
          []⟩).errorMsg).isSome = true) :=
  claim6_no_done_list (fun _ => "")
    ⟨some 20240101, some 20240131, true, true, [⟨"L9", "Backlog"⟩], []⟩
    ⟨"2024-01-01", "2024-01-31", [⟨"L9", "Backlog"⟩], [], [], []⟩
    (by decide) (by decide)

/-- Claim C7: with a Done list present, a valid range and successful
fetches, an empty cards array yields a rendered report (no error) whose
heading shows count 0 and whose table body contains no rows. -/
theorem claim7_empty_cards (fmtDate : Int → String) (inp : HandlerInput)
    (s e : Int) (dl : TrelloList)
    (hs : inp.startDateRaw = some s) (he : inp.endDateRaw = some e)
    (hse : s ≤ e) (hl : inp.listsOk = true) (hc : inp.cardsOk = true)
    (hfind : findDoneList inp.lists = some dl)
    (hcards : inp.cards = []) :
    (generateReportHandler fmtDate inp).rendered = true ∧
    (generateReportHandler fmtDate inp).content
      = displayReport fmtDate [] ∧
    ([] : List Card).map (cardRow fmtDate) = [] ∧
    displayReport fmtDate []
      = "\n    <h3>Completed Tasks (0)</h3>\n    <table>\n      <thead>\n        <tr>\n          <th>Task Name</th>\n          <th>Labels</th>\n          <th>Completed Date</th>\n        </tr>\n      </thead>\n      <tbody>\n        \n      </tbody>\n    </table>\n  " := by
  obtain ⟨sr, er, lo, co, ls, cs⟩ := inp
  simp only at hs he hl hc hcards hfind
  subst hs he hl hc hcards
  have hnotgt : ¬ s > e := not_lt.mpr hse
  refine ⟨?_, ?_, rfl, rfl⟩ <;>
    simp [generateReportHandler, hnotgt, hfind, completedCards]

/-- Witness for C7: empty board data on the example board. -/
theorem claim7_empty_cards_witness :
    (generateReportHandler (fun _ => "")
        ⟨some 20240101, some 20240131, true, true, exampleLists,
          []⟩).rendered = true ∧
    (generateReportHandler (fun _ => "")
        ⟨some 20240101, some 20240131, true, true, exampleLists,
          []⟩).content = displayReport (fun _ => "") [] ∧
    ([] : List Card).map (cardRow (fun _ => "")) = [] ∧
    displayReport (fun _ => "") []
      = "\n    <h3>Completed Tasks (0)</h3>\n    <table>\n      <thead>\n        <tr>\n          <th>Task Name</th>\n          <th>Labels</th>\n          <th>Completed Date</th>\n        </tr>\n      </thead>\n      <tbody>\n        \n      </tbody>\n    </table>\n  " :=
  claim7_empty_cards (fun _ => "")
    ⟨some 20240101, some 20240131, true, true, exampleLists, []⟩
    20240101 20240131 ⟨"L1", "Done"⟩ rfl rfl (by decide) rfl rfl
    (by decide) rfl

/-- Witness for C10 on the example board. -/
theorem claim10_filter_idempotent_witness :
    completedCards "L1" 20240101 20240131
        (completedCards "L1" 20240101 20240131
          [exampleCard1, exampleCard2])
      = completedCards "L1" 20240101 20240131
          [exampleCard1, exampleCard2] :=
  claim10_filter_idempotent exampleLists ⟨"L1", "Done"⟩ 20240101 20240131
    [exampleCard1, exampleCard2] (by decide)

/-- Claim C9 counterexample: on a card with one empty-named label, the
Labels cell is "No Labels" although the card does have labels and the
comma-join of its label names is the empty string; and the rows built by
src/client.js populateReportTable have six cells, not three. -/
theorem claim9_counterexample :
    claim9Card.labels ≠ [] ∧
    joinLabelNames claim9Card.labels = "" ∧
    labelsCellText claim9Card.labels = "No Labels" ∧
    labelsCellText claim9Card.labels ≠ joinLabelNames claim9Card.labels ∧
    (rowCells (populateRow (fun _ => "1/10/2024") [] [claim9Card]
      claim9Card)).length ≠ 3 := by
  decide

/-- Claim C9 as amended: displayReport renders exactly the three-column
table (Task Name, Labels, Completed Date) of the spec renderer, with the
Labels cell equal to the comma-joined label names unless that join is
empty, in which case it is "No Labels"; the render is a pure function of
the card list and date formatter.  The populateReportTable render of
src/client.js instead emits six cells per row and uses the plain
comma-join with no fallback. -/
theorem claim9_amended (fmtDate : Int → String) (cards : List Card)
    (members : List Member) (doneCards : List Card) (c : Card) :
    displayReport fmtDate cards
      = specRender cards.length
          (cards.map (fun c => (c.name, specLabelsText c.labels,
            fmtDate c.dateLastActivity))) ∧
    (rowCells (populateRow fmtDate members doneCards c)).length = 6 ∧
    (populateRow fmtDate members doneCards c).labelsCell
      = joinLabelNames c.labels := by
  refine ⟨?_, rfl, rfl⟩
  simp only [displayReport, specRender, List.map_map]
  rfl

end TrelloReport

namespace TrelloServer

/-- Claim C5 counterexample: the part_000 /api/cards handler has no
`response.ok` check, so an upstream 404 whose body parses is passed
through with status 200 and the upstream body — not answered with a 500
and a generic error object. -/
theorem claim5_counterexample :
    upstream404.isOk = false ∧
    (apiCardsHandlerPart000 oracle404).1
      = ⟨200, .passthrough "upstream error body"⟩ ∧
    (apiCardsHandlerPart000 oracle404).1.status ≠ 500 := by
  decide

/-- Claim C5 as amended: the src/server.js /api/lists and /api/cards
handlers answer a 2xx upstream response with 200 and the upstream body,
and answer any non-2xx upstream response or network failure with 500 and
a generic error object, in a single upstream attempt; the part_000
variant of /api/cards instead passes any upstream response whose body
parses through with status 200, and answers 500 only on network or
parse failure. -/
theorem claim5_amended
    (oracleOk oracleBad oracleNet : Nat → UpstreamOutcome)
    (r rbad : UpstreamResponse)
    (hok : r.isOk = true) (hparse : r.bodyParses = true)
    (hbad : rbad.isOk = false) (hbadparse : rbad.bodyParses = true)
    (h0 : oracleOk 0 = .response r) (h0bad : oracleBad 0 = .response rbad)
    (h0net : oracleNet 0 = .netFail) :
    apiListsHandler oracleOk = (⟨200, .passthrough r.body⟩, 1) ∧
    apiCardsHandler oracleOk = (⟨200, .passthrough r.body⟩, 1) ∧
    apiListsHandler oracleBad
      = (⟨500, .errorObj "Failed to fetch lists from Trello"⟩, 1) ∧
    apiCardsHandler oracleBad
      = (⟨500, .errorObj "Failed to fetch cards from Trello"⟩, 1) ∧
    apiListsHandler oracleNet
      = (⟨500, .errorObj "Failed to fetch lists from Trello"⟩, 1) ∧
    apiCardsHandler oracleNet
      = (⟨500, .errorObj "Failed to fetch cards from Trello"⟩, 1) ∧
    apiCardsHandlerPart000 oracleBad
      = (⟨200, .passthrough rbad.body⟩, 1) := by
  simp [apiListsHandler, apiCardsHandler, apiCardsHandlerPart000,
    serverProxy, h0, h0bad, h0net, hok, hparse, hbad, hbadparse]

/-- Witness for the amended C5 at the three concrete oracles. -/
theorem claim5_amended_witness :
    apiListsHandler oracle200 = (⟨200, .passthrough "[]"⟩, 1) ∧
    apiCardsHandler oracle200 = (⟨200, .passthrough "[]"⟩, 1) ∧
    apiListsHandler oracle404
      = (⟨500, .errorObj "Failed to fetch lists from Trello"⟩, 1) ∧
    apiCardsHandler oracle404
      = (⟨500, .errorObj "Failed to fetch cards from Trello"⟩, 1) ∧
    apiListsHandler oracleNetFail
      = (⟨500, .errorObj "Failed to fetch lists from Trello"⟩, 1) ∧
    apiCardsHandler oracleNetFail
      = (⟨500, .errorObj "Failed to fetch cards from Trello"⟩, 1) ∧
    apiCardsHandlerPart000 oracle404
      = (⟨200, .passthrough "upstream error body"⟩, 1) :=
  claim5_amended oracle200 oracle404 oracleNetFail
    ⟨200, true, "[]"⟩ upstream404 rfl rfl rfl rfl rfl rfl rfl

end TrelloServer
